import Mathlib

/-!
Verification of the GivEnergy modbus command-translation layer
(`custom_components/givenergy_local/givenergy_modbus/client/commands.py`).

The Python module is embedded shallowly: request PDUs become an inductive
value type, builder methods become pure Lean functions, and `raise ValueError`
becomes an `Except` error carrying the exact message the source formats.
-/

namespace Givenergy

/-- Modelled from the spec: the device-model enumeration (`Model` in
`model/inverter.py`, not part of the provided sources). The spec requires
an all-in-one variant and at least one other hardware family; only the
distinction "all-in-one or not" is observable in `commands.py`. -/
inductive Model where
  | all_in_one
  | other_family
deriving DecidableEq

/-- A clock time at hour:minute granularity, mirroring Python's `datetime.time`
fields used by `commands.py` (hour 0–23, minute 0–59, enforced by that type). -/
structure Time where
  hour : Nat
  minute : Nat
  hour_lt : hour < 24
  minute_lt : minute < 60

/-- `int(t.strftime("%H%M"))`: the zero-padded decimal packing of a clock
time, which for hour < 24 and minute < 60 equals `hour * 100 + minute`. -/
def Time.strftimeHHMM (t : Time) : Nat :=
  t.hour * 100 + t.minute

/-- Modelled from the spec: `TimeSlot` (in `model/__init__.py`, not part of the
provided sources) is a value object holding a start and an end clock time. -/
structure TimeSlot where
  start : Time
  end_ : Time

/-- Python's `datetime.datetime` as consumed by `set_system_date_time`:
only the six named fields are read. -/
structure DateTime where
  year : Nat
  month : Nat
  day : Nat
  hour : Nat
  minute : Nat
  second : Nat

/-- The three request variants produced by this core. Write values are `Int`
(Python ints; booleans are coerced `True -> 1`, `False -> 0`). -/
inductive TransparentRequest where
  | readHolding (slave_address base_register register_count : Nat)
  | readInput (slave_address base_register register_count : Nat)
  | writeHolding (register : Nat) (value : Int)
deriving DecidableEq

/-- `raise ValueError(...)` in the source: a validation failure carrying the
formatted message (parameter name, offending value, valid range). -/
inductive CommandError where
  | invalidParameter (message : String)
deriving DecidableEq

namespace RegisterMap

def ENABLE_CHARGE_TARGET : Nat := 20

def BATTERY_POWER_MODE : Nat := 27

def SOC_FORCE_ADJUST : Nat := 29

def CHARGE_SLOT_2_START : Nat := 31

def CHARGE_SLOT_2_END : Nat := 32

def SYSTEM_TIME_YEAR : Nat := 35

def SYSTEM_TIME_MONTH : Nat := 36

def SYSTEM_TIME_DAY : Nat := 37

def SYSTEM_TIME_HOUR : Nat := 38

def SYSTEM_TIME_MINUTE : Nat := 39

def SYSTEM_TIME_SECOND : Nat := 40

def DISCHARGE_SLOT_2_START : Nat := 44

def DISCHARGE_SLOT_2_END : Nat := 45

def ACTIVE_POWER_RATE : Nat := 50

def DISCHARGE_SLOT_1_START : Nat := 56

def DISCHARGE_SLOT_1_END : Nat := 57

def ENABLE_DISCHARGE : Nat := 59

def CHARGE_SLOT_1_START : Nat := 94

def CHARGE_SLOT_1_END : Nat := 95

def ENABLE_CHARGE : Nat := 96

def BATTERY_SOC_RESERVE : Nat := 110

def BATTERY_CHARGE_LIMIT : Nat := 111

def BATTERY_DISCHARGE_LIMIT : Nat := 112

def BATTERY_DISCHARGE_MIN_POWER_RESERVE : Nat := 114

def CHARGE_TARGET_SOC : Nat := 116

def REBOOT : Nat := 163

def BATTERY_PAUSE_MODE : Nat := 318

def BATTERY_PAUSE_SLOT_START : Nat := 319

def BATTERY_PAUSE_SLOT_END : Nat := 320

/-- The complete list of declared `RegisterMap` constants (29 of them). -/
def addresses : List Nat :=
  [ENABLE_CHARGE_TARGET, BATTERY_POWER_MODE, SOC_FORCE_ADJUST,
   CHARGE_SLOT_2_START, CHARGE_SLOT_2_END,
   SYSTEM_TIME_YEAR, SYSTEM_TIME_MONTH, SYSTEM_TIME_DAY,
   SYSTEM_TIME_HOUR, SYSTEM_TIME_MINUTE, SYSTEM_TIME_SECOND,
   DISCHARGE_SLOT_2_START, DISCHARGE_SLOT_2_END, ACTIVE_POWER_RATE,
   DISCHARGE_SLOT_1_START, DISCHARGE_SLOT_1_END, ENABLE_DISCHARGE,
   CHARGE_SLOT_1_START, CHARGE_SLOT_1_END, ENABLE_CHARGE,
   BATTERY_SOC_RESERVE, BATTERY_CHARGE_LIMIT, BATTERY_DISCHARGE_LIMIT,
   BATTERY_DISCHARGE_MIN_POWER_RESERVE, CHARGE_TARGET_SOC, REBOOT,
   BATTERY_PAUSE_MODE, BATTERY_PAUSE_SLOT_START, BATTERY_PAUSE_SLOT_END]

end RegisterMap

/-- Python `True -> 1`, `False -> 0` coercion applied when a boolean is
written to a holding register. -/
def boolInt (b : Bool) : Int :=
  if b then 1 else 0

namespace CommandBuilder

/-- `CommandBuilder.__init__`: the primary slave address derived from the
optional device model. -/
def main_slave_address (model : Option Model) : Nat :=
  if model = none ∨ model = some Model.all_in_one then 0x11 else 0x32

/-- `refresh_additional_holding_registers`. -/
def refresh_additional_holding_registers (model : Option Model)
    (base_register : Nat) : List TransparentRequest :=
  [.readHolding (main_slave_address model) base_register 60]

/-- `refresh_plant_data`. `additional_holding_registers = []` models the
Python default `None` (the loop body runs zero times either way). -/
def refresh_plant_data (model : Option Model) (complete : Bool)
    (number_batteries : Nat) (max_batteries : Nat)
    (additional_holding_registers : List Nat) : List TransparentRequest :=
  let requests : List TransparentRequest :=
    [.readInput (main_slave_address model) 0 60]
  let requests := requests ++
    (if complete then
      [.readHolding (main_slave_address model) 0 60,
       .readHolding (main_slave_address model) 60 60,
       .readInput (main_slave_address model) 120 60]
     else [])
  let number_batteries :=
    if complete ∧ ¬(model = none ∨ model = some Model.all_in_one) then
      max_batteries
    else number_batteries
  let requests := requests ++
    (List.range number_batteries).map
      (fun i => .readInput (0x32 + i) 60 60)
  requests ++
    ((additional_holding_registers.map
      (refresh_additional_holding_registers model)).flatten)

/-- `disable_charge_target`. -/
def disable_charge_target : List TransparentRequest :=
  [.writeHolding RegisterMap.ENABLE_CHARGE_TARGET (boolInt false),
   .writeHolding RegisterMap.CHARGE_TARGET_SOC 100]

/-- `set_charge_target`. -/
def set_charge_target (target_soc : Int) :
    Except CommandError (List TransparentRequest) :=
  if ¬(4 ≤ target_soc ∧ target_soc ≤ 100) then
    .error (.invalidParameter
      ("Charge Target SOC (" ++ toString target_soc ++ ") must be in [4-100]%"))
  else
    .ok [.writeHolding RegisterMap.CHARGE_TARGET_SOC target_soc]

/-- `set_enable_charge`. -/
def set_enable_charge (enabled : Bool) : List TransparentRequest :=
  [.writeHolding RegisterMap.ENABLE_CHARGE (boolInt enabled)]

/-- `set_enable_charge_target`. -/
def set_enable_charge_target (enabled : Bool) : List TransparentRequest :=
  [.writeHolding RegisterMap.ENABLE_CHARGE_TARGET (boolInt enabled)]

/-- `set_enable_discharge`. -/
def set_enable_discharge (enabled : Bool) : List TransparentRequest :=
  [.writeHolding RegisterMap.ENABLE_DISCHARGE (boolInt enabled)]

/-- `set_inverter_reboot`. -/
def set_inverter_reboot : List TransparentRequest :=
  [.writeHolding RegisterMap.REBOOT 100]

/-- `set_calibrate_battery_soc`. -/
def set_calibrate_battery_soc : List TransparentRequest :=
  [.writeHolding RegisterMap.SOC_FORCE_ADJUST 1]

/-- Deprecated `enable_charge`. -/
def enable_charge : List TransparentRequest :=
  set_enable_charge true

/-- Deprecated `disable_charge`. -/
def disable_charge : List TransparentRequest :=
  set_enable_charge false

/-- Deprecated `enable_discharge`. -/
def enable_discharge : List TransparentRequest :=
  set_enable_discharge true

/-- Deprecated `disable_discharge`. -/
def disable_discharge : List TransparentRequest :=
  set_enable_discharge false

/-- `set_discharge_mode_max_power`. -/
def set_discharge_mode_max_power : List TransparentRequest :=
  [.writeHolding RegisterMap.BATTERY_POWER_MODE 0]

/-- `set_discharge_mode_to_match_demand`. -/
def set_discharge_mode_to_match_demand : List TransparentRequest :=
  [.writeHolding RegisterMap.BATTERY_POWER_MODE 1]

/-- `set_battery_soc_reserve` (`val = int(val)` is the identity on ints). -/
def set_battery_soc_reserve (val : Int) :
    Except CommandError (List TransparentRequest) :=
  if ¬(4 ≤ val ∧ val ≤ 100) then
    .error (.invalidParameter
      ("Minimum SOC / shallow charge (" ++ toString val ++ ") must be in [4-100]%"))
  else
    .ok [.writeHolding RegisterMap.BATTERY_SOC_RESERVE val]

/-- Deprecated `set_shallow_charge`. -/
def set_shallow_charge (val : Int) :
    Except CommandError (List TransparentRequest) :=
  set_battery_soc_reserve val

/-- `set_battery_charge_limit`. -/
def set_battery_charge_limit (val : Int) :
    Except CommandError (List TransparentRequest) :=
  if ¬(0 ≤ val ∧ val ≤ 50) then
    .error (.invalidParameter
      ("Specified Charge Limit (" ++ toString val ++ "%) is not in [0-50]%"))
  else
    .ok [.writeHolding RegisterMap.BATTERY_CHARGE_LIMIT val]

/-- `set_battery_discharge_limit`. -/
def set_battery_discharge_limit (val : Int) :
    Except CommandError (List TransparentRequest) :=
  if ¬(0 ≤ val ∧ val ≤ 50) then
    .error (.invalidParameter
      ("Specified Discharge Limit (" ++ toString val ++ "%) is not in [0-50]%"))
  else
    .ok [.writeHolding RegisterMap.BATTERY_DISCHARGE_LIMIT val]

/-- `set_battery_power_reserve`. -/
def set_battery_power_reserve (val : Int) :
    Except CommandError (List TransparentRequest) :=
  if ¬(4 ≤ val ∧ val ≤ 100) then
    .error (.invalidParameter
      ("Battery power reserve (" ++ toString val ++ ") must be in [4-100]%"))
  else
    .ok [.writeHolding RegisterMap.BATTERY_DISCHARGE_MIN_POWER_RESERVE val]

/-- `set_battery_pause_mode` (the `BatteryPauseMode` argument is range-checked
as a plain integer, so the embedding takes an `Int`). -/
def set_battery_pause_mode (val : Int) :
    Except CommandError (List TransparentRequest) :=
  if ¬(0 ≤ val ∧ val ≤ 3) then
    .error (.invalidParameter
      ("Battery pause mode (" ++ toString val ++ ") must be in [0-3]"))
  else
    .ok [.writeHolding RegisterMap.BATTERY_PAUSE_MODE val]

/-- The `getattr(RegisterMap, f"...CHARGE_SLOT_{idx}_...")` pair lookup in
`_set_charge_slot`: the four attribute names that resolve; any other
combination raises `AttributeError` (`none` here). -/
def chargeSlotRegisters (discharge : Bool) (idx : Nat) : Option (Nat × Nat) :=
  match discharge, idx with
  | false, 1 => some (RegisterMap.CHARGE_SLOT_1_START, RegisterMap.CHARGE_SLOT_1_END)
  | false, 2 => some (RegisterMap.CHARGE_SLOT_2_START, RegisterMap.CHARGE_SLOT_2_END)
  | true, 1 => some (RegisterMap.DISCHARGE_SLOT_1_START, RegisterMap.DISCHARGE_SLOT_1_END)
  | true, 2 => some (RegisterMap.DISCHARGE_SLOT_2_START, RegisterMap.DISCHARGE_SLOT_2_END)
  | _, _ => none

/-- `_set_charge_slot`. -/
def set_charge_slot (discharge : Bool) (idx : Nat) (slot : Option TimeSlot) :
    Option (List TransparentRequest) :=
  (chargeSlotRegisters discharge idx).map fun p =>
    match slot with
    | some s =>
        [.writeHolding p.1 (s.start.strftimeHHMM : Int),
         .writeHolding p.2 (s.end_.strftimeHHMM : Int)]
    | none =>
        [.writeHolding p.1 0, .writeHolding p.2 0]

/-- `set_pause_slot_start`. -/
def set_pause_slot_start (start : Option Time) : List TransparentRequest :=
  match start with
  | some t =>
      [.writeHolding RegisterMap.BATTERY_PAUSE_SLOT_START (t.strftimeHHMM : Int)]
  | none =>
      [.writeHolding RegisterMap.BATTERY_PAUSE_SLOT_START 0]

/-- `set_pause_slot_end`. -/
def set_pause_slot_end (end_ : Option Time) : List TransparentRequest :=
  match end_ with
  | some t =>
      [.writeHolding RegisterMap.BATTERY_PAUSE_SLOT_END (t.strftimeHHMM : Int)]
  | none =>
      [.writeHolding RegisterMap.BATTERY_PAUSE_SLOT_END 0]

/-- `set_charge_slot_1` (only legal `(discharge, idx)` pairs are used, so the
`getattr` lookup always succeeds; `.getD []` is never the taken branch). -/
def set_charge_slot_1 (timeslot : TimeSlot) : List TransparentRequest :=
  (set_charge_slot false 1 (some timeslot)).getD []

/-- `reset_charge_slot_1`. -/
def reset_charge_slot_1 : List TransparentRequest :=
  (set_charge_slot false 1 none).getD []

/-- `set_charge_slot_2`. -/
def set_charge_slot_2 (timeslot : TimeSlot) : List TransparentRequest :=
  (set_charge_slot false 2 (some timeslot)).getD []

/-- `reset_charge_slot_2`. -/
def reset_charge_slot_2 : List TransparentRequest :=
  (set_charge_slot false 2 none).getD []

/-- `set_discharge_slot_1`. -/
def set_discharge_slot_1 (timeslot : TimeSlot) : List TransparentRequest :=
  (set_charge_slot true 1 (some timeslot)).getD []

/-- `reset_discharge_slot_1`. -/
def reset_discharge_slot_1 : List TransparentRequest :=
  (set_charge_slot true 1 none).getD []

/-- `set_discharge_slot_2`. -/
def set_discharge_slot_2 (timeslot : TimeSlot) : List TransparentRequest :=
  (set_charge_slot true 2 (some timeslot)).getD []

/-- `reset_discharge_slot_2`. -/
def reset_discharge_slot_2 : List TransparentRequest :=
  (set_charge_slot true 2 none).getD []

/-- `set_system_date_time`. -/
def set_system_date_time (dt : DateTime) : List TransparentRequest :=
  [.writeHolding RegisterMap.SYSTEM_TIME_YEAR ((dt.year : Int) - 2000),
   .writeHolding RegisterMap.SYSTEM_TIME_MONTH (dt.month : Int),
   .writeHolding RegisterMap.SYSTEM_TIME_DAY (dt.day : Int),
   .writeHolding RegisterMap.SYSTEM_TIME_HOUR (dt.hour : Int),
   .writeHolding RegisterMap.SYSTEM_TIME_MINUTE (dt.minute : Int),
   .writeHolding RegisterMap.SYSTEM_TIME_SECOND (dt.second : Int)]

/-- `set_mode_dynamic` (a `ValueError` from `set_battery_soc_reserve(4)` would
propagate, hence the `Except` result). -/
def set_mode_dynamic : Except CommandError (List TransparentRequest) := do
  let reserve ← set_battery_soc_reserve 4
  return set_discharge_mode_to_match_demand ++ reserve ++
    set_enable_discharge false

/-- `set_mode_storage`. The defaults (`discharge_slot_1 = 16:00-07:00`,
`discharge_slot_2 = None`, `discharge_for_export = False`) are supplied
explicitly by callers of the embedding. -/
def set_mode_storage (discharge_slot_1 : TimeSlot)
    (discharge_slot_2 : Option TimeSlot) (discharge_for_export : Bool) :
    Except CommandError (List TransparentRequest) := do
  let ret :=
    if discharge_for_export then set_discharge_mode_max_power
    else set_discharge_mode_to_match_demand
  let reserve ← set_battery_soc_reserve 100
  let slot2 :=
    match discharge_slot_2 with
    | some s => set_discharge_slot_2 s
    | none => reset_discharge_slot_2
  return ret ++ reserve ++ set_enable_discharge true ++
    set_discharge_slot_1 discharge_slot_1 ++ slot2

end CommandBuilder

/-- Does every Write Holding Register request in the list target an address
declared in the Register Map? (Read requests are ignored.) -/
def writesInMap (reqs : List TransparentRequest) : Bool :=
  reqs.all fun r =>
    match r with
    | .writeHolding reg _ => RegisterMap.addresses.contains reg
    | _ => true

/-- `writesInMap` lifted over a possibly-failed builder result: a rejected
call emits no requests at all, so it vacuously satisfies the invariant. -/
def exceptWritesInMap (x : Except CommandError (List TransparentRequest)) : Bool :=
  match x with
  | .ok reqs => writesInMap reqs
  | .error _ => true

/-- Recognises the per-battery read requests of `refresh_plant_data`:
Read Input Registers, base 60, count 60, slave address at or above the
battery base address `0x32`. -/
def isBatteryRead (r : TransparentRequest) : Bool :=
  match r with
  | .readInput s 60 60 => decide (0x32 ≤ s)
  | _ => false

/-- Number of per-battery read requests in a request list. -/
def batteryReadCount (reqs : List TransparentRequest) : Nat :=
  reqs.countP fun r => isBatteryRead r

/-- The 16:00 to 07:00 (overnight) discharge slot used as the spec's
worked example. -/
def slot1600to0700 : TimeSlot :=
  ⟨⟨16, 0, by omega, by omega⟩, ⟨7, 0, by omega, by omega⟩⟩

/-! ## Helper lemmas -/

theorem flatten_singleton_map {α β : Type} (f : α → β) (l : List α) :
    (l.map fun a => [f a]).flatten = l.map f := by
  induction l with
  | nil => rfl
  | cons a t ih => simp [ih]

/-- The ordered decomposition of `refresh_plant_data`: primary input block,
then (if complete) the three fixed blocks, then the per-battery blocks in
ascending index order, then one holding read per extra base register. -/
theorem refresh_decomp (model : Option Model) (complete : Bool)
    (nb mb : Nat) (extra : List Nat) :
    CommandBuilder.refresh_plant_data model complete nb mb extra =
      [TransparentRequest.readInput (CommandBuilder.main_slave_address model) 0 60] ++
      (if complete then
        [TransparentRequest.readHolding (CommandBuilder.main_slave_address model) 0 60,
         TransparentRequest.readHolding (CommandBuilder.main_slave_address model) 60 60,
         TransparentRequest.readInput (CommandBuilder.main_slave_address model) 120 60]
       else []) ++
      ((List.range
          (if complete ∧ ¬(model = none ∨ model = some Model.all_in_one) then mb
           else nb)).map
        fun i => TransparentRequest.readInput (0x32 + i) 60 60) ++
      extra.map
        (fun hr =>
          TransparentRequest.readHolding (CommandBuilder.main_slave_address model) hr 60) := by
  unfold CommandBuilder.refresh_plant_data
    CommandBuilder.refresh_additional_holding_registers
  rw [flatten_singleton_map]

theorem countP_battery_range (n : Nat) :
    List.countP (fun r => isBatteryRead r)
      ((List.range n).map fun i => TransparentRequest.readInput (0x32 + i) 60 60) = n := by
  rw [List.countP_map]
  rw [List.countP_eq_length.mpr]
  · exact List.length_range n
  · intro a _
    simp only [Function.comp]
    simp [isBatteryRead, Nat.le_add_right]

theorem countP_extra_reads (a : Nat) (l : List Nat) :
    List.countP (fun r => isBatteryRead r)
      (l.map fun hr => TransparentRequest.readHolding a hr 60) = 0 := by
  rw [List.countP_map]
  rw [List.countP_eq_zero]
  intro x _
  simp [Function.comp, isBatteryRead]

theorem writesInMap_append (l₁ l₂ : List TransparentRequest) :
    writesInMap (l₁ ++ l₂) = (writesInMap l₁ && writesInMap l₂) := by
  unfold writesInMap
  exact List.all_append

theorem writesInMap_battery_range (n : Nat) :
    writesInMap ((List.range n).map fun i => TransparentRequest.readInput (0x32 + i) 60 60) = true := by
  unfold writesInMap
  rw [List.all_eq_true]
  intro r hr
  rw [List.mem_map] at hr
  obtain ⟨i, _, rfl⟩ := hr
  rfl

theorem writesInMap_extra_reads (a : Nat) (l : List Nat) :
    writesInMap (l.map fun hr => TransparentRequest.readHolding a hr 60) = true := by
  unfold writesInMap
  rw [List.all_eq_true]
  intro r hr
  rw [List.mem_map] at hr
  obtain ⟨hr', _, rfl⟩ := hr
  rfl

/-! ## Claim theorems -/

/-- C3: for every primary slot, optional secondary slot and export flag,
`set_mode_storage` returns, in this exact order with no interleaving:
the discharge-mode write (0 when exporting, else 1), SOC reserve 100,
discharge enable, the two writes for discharge slot 1, and then either the
two writes for the supplied secondary slot or two zero writes clearing
discharge slot 2 — a stale secondary slot is never left in place. -/
theorem set_mode_storage_sequence (s1 : TimeSlot) (s2 : Option TimeSlot)
    (e : Bool) :
    CommandBuilder.set_mode_storage s1 s2 e =
      .ok ([TransparentRequest.writeHolding RegisterMap.BATTERY_POWER_MODE
              (if e then 0 else 1),
            TransparentRequest.writeHolding RegisterMap.BATTERY_SOC_RESERVE 100,
            TransparentRequest.writeHolding RegisterMap.ENABLE_DISCHARGE 1,
            TransparentRequest.writeHolding RegisterMap.DISCHARGE_SLOT_1_START
              ((s1.start.hour * 100 + s1.start.minute : Nat) : Int),
            TransparentRequest.writeHolding RegisterMap.DISCHARGE_SLOT_1_END
              ((s1.end_.hour * 100 + s1.end_.minute : Nat) : Int)] ++
        (match s2 with
         | some s =>
            [TransparentRequest.writeHolding RegisterMap.DISCHARGE_SLOT_2_START
               ((s.start.hour * 100 + s.start.minute : Nat) : Int),
             TransparentRequest.writeHolding RegisterMap.DISCHARGE_SLOT_2_END
               ((s.end_.hour * 100 + s.end_.minute : Nat) : Int)]
         | none =>
            [TransparentRequest.writeHolding RegisterMap.DISCHARGE_SLOT_2_START 0,
             TransparentRequest.writeHolding RegisterMap.DISCHARGE_SLOT_2_END 0])) := by
  cases e <;> cases s2 <;> rfl

/-- C4: `set_mode_dynamic` always returns exactly three writes in order:
discharge-mode 1 (match demand), SOC reserve 4, discharge enable 0 (false).
It is a constant function of no inputs, hence deterministic and idempotent. -/
theorem set_mode_dynamic_sequence :
    CommandBuilder.set_mode_dynamic =
      .ok [TransparentRequest.writeHolding RegisterMap.BATTERY_POWER_MODE 1,
           TransparentRequest.writeHolding RegisterMap.BATTERY_SOC_RESERVE 4,
           TransparentRequest.writeHolding RegisterMap.ENABLE_DISCHARGE 0] := rfl

/-- C6: every slot-setting operation emits exactly two writes valued
`h1*100 + m1` (start) and `h2*100 + m2` (end) to that slot's register pair;
an absent slot emits exactly two writes of the literal 0; and the worked
example 16:00 to 07:00 encodes as 1600 and 700. -/
theorem charge_slot_encoding :
    (∀ ts : TimeSlot,
      CommandBuilder.set_charge_slot_1 ts =
        [TransparentRequest.writeHolding RegisterMap.CHARGE_SLOT_1_START
           ((ts.start.hour * 100 + ts.start.minute : Nat) : Int),
         TransparentRequest.writeHolding RegisterMap.CHARGE_SLOT_1_END
           ((ts.end_.hour * 100 + ts.end_.minute : Nat) : Int)]) ∧
    (∀ ts : TimeSlot,
      CommandBuilder.set_charge_slot_2 ts =
        [TransparentRequest.writeHolding RegisterMap.CHARGE_SLOT_2_START
           ((ts.start.hour * 100 + ts.start.minute : Nat) : Int),
         TransparentRequest.writeHolding RegisterMap.CHARGE_SLOT_2_END
           ((ts.end_.hour * 100 + ts.end_.minute : Nat) : Int)]) ∧
    (∀ ts : TimeSlot,
      CommandBuilder.set_discharge_slot_1 ts =
        [TransparentRequest.writeHolding RegisterMap.DISCHARGE_SLOT_1_START
           ((ts.start.hour * 100 + ts.start.minute : Nat) : Int),
         TransparentRequest.writeHolding RegisterMap.DISCHARGE_SLOT_1_END
           ((ts.end_.hour * 100 + ts.end_.minute : Nat) : Int)]) ∧
    (∀ ts : TimeSlot,
      CommandBuilder.set_discharge_slot_2 ts =
        [TransparentRequest.writeHolding RegisterMap.DISCHARGE_SLOT_2_START
           ((ts.start.hour * 100 + ts.start.minute : Nat) : Int),
         TransparentRequest.writeHolding RegisterMap.DISCHARGE_SLOT_2_END
           ((ts.end_.hour * 100 + ts.end_.minute : Nat) : Int)]) ∧
    CommandBuilder.reset_charge_slot_1 =
      [TransparentRequest.writeHolding RegisterMap.CHARGE_SLOT_1_START 0,
       TransparentRequest.writeHolding RegisterMap.CHARGE_SLOT_1_END 0] ∧
    CommandBuilder.reset_charge_slot_2 =
      [TransparentRequest.writeHolding RegisterMap.CHARGE_SLOT_2_START 0,
       TransparentRequest.writeHolding RegisterMap.CHARGE_SLOT_2_END 0] ∧
    CommandBuilder.reset_discharge_slot_1 =
      [TransparentRequest.writeHolding RegisterMap.DISCHARGE_SLOT_1_START 0,
       TransparentRequest.writeHolding RegisterMap.DISCHARGE_SLOT_1_END 0] ∧
    CommandBuilder.reset_discharge_slot_2 =
      [TransparentRequest.writeHolding RegisterMap.DISCHARGE_SLOT_2_START 0,
       TransparentRequest.writeHolding RegisterMap.DISCHARGE_SLOT_2_END 0] ∧
    CommandBuilder.set_discharge_slot_1 slot1600to0700 =
      [TransparentRequest.writeHolding RegisterMap.DISCHARGE_SLOT_1_START 1600,
       TransparentRequest.writeHolding RegisterMap.DISCHARGE_SLOT_1_END 700] :=
  ⟨fun _ => rfl, fun _ => rfl, fun _ => rfl, fun _ => rfl,
   rfl, rfl, rfl, rfl, rfl⟩

/-- C7: `set_system_date_time` always produces exactly six writes in the
fixed order year, month, day, hour, minute, second, the year offset from
2000 and the rest passed through; 2024-03-15 09:30:45 yields the values
24, 3, 15, 9, 30, 45. -/
theorem set_system_date_time_encoding :
    (∀ dt : DateTime,
      CommandBuilder.set_system_date_time dt =
        [TransparentRequest.writeHolding RegisterMap.SYSTEM_TIME_YEAR
           ((dt.year : Int) - 2000),
         TransparentRequest.writeHolding RegisterMap.SYSTEM_TIME_MONTH (dt.month : Int),
         TransparentRequest.writeHolding RegisterMap.SYSTEM_TIME_DAY (dt.day : Int),
         TransparentRequest.writeHolding RegisterMap.SYSTEM_TIME_HOUR (dt.hour : Int),
         TransparentRequest.writeHolding RegisterMap.SYSTEM_TIME_MINUTE (dt.minute : Int),
         TransparentRequest.writeHolding RegisterMap.SYSTEM_TIME_SECOND (dt.second : Int)]) ∧
    CommandBuilder.set_system_date_time ⟨2024, 3, 15, 9, 30, 45⟩ =
      [TransparentRequest.writeHolding RegisterMap.SYSTEM_TIME_YEAR 24,
       TransparentRequest.writeHolding RegisterMap.SYSTEM_TIME_MONTH 3,
       TransparentRequest.writeHolding RegisterMap.SYSTEM_TIME_DAY 15,
       TransparentRequest.writeHolding RegisterMap.SYSTEM_TIME_HOUR 9,
       TransparentRequest.writeHolding RegisterMap.SYSTEM_TIME_MINUTE 30,
       TransparentRequest.writeHolding RegisterMap.SYSTEM_TIME_SECOND 45] :=
  ⟨fun _ => rfl, by decide⟩

/-- C9: every deprecated alias returns exactly the request sequence of the
operation it wraps, for every input, including both the success and the
out-of-range error behaviour of `set_shallow_charge`. -/
theorem deprecated_aliases_equiv :
    CommandBuilder.enable_charge = CommandBuilder.set_enable_charge true ∧
    CommandBuilder.disable_charge = CommandBuilder.set_enable_charge false ∧
    CommandBuilder.enable_discharge = CommandBuilder.set_enable_discharge true ∧
    CommandBuilder.disable_discharge = CommandBuilder.set_enable_discharge false ∧
    ∀ v : Int,
      CommandBuilder.set_shallow_charge v = CommandBuilder.set_battery_soc_reserve v :=
  ⟨rfl, rfl, rfl, rfl, fun _ => rfl⟩

/-- C1: each percentage-style setting accepts exactly its declared inclusive
range (charge target 4-100, SOC reserve 4-100, charge limit 0-50, discharge
limit 0-50, power reserve 4-100): inside the range it produces exactly one
write of that exact value to its register, and outside the range it fails
with an `InvalidParameter` error carrying the offending value and the valid
range, producing no requests. -/
theorem percentage_settings_range_spec (v : Int) :
    ((4 ≤ v ∧ v ≤ 100) →
      CommandBuilder.set_charge_target v =
        .ok [TransparentRequest.writeHolding RegisterMap.CHARGE_TARGET_SOC v]) ∧
    (¬(4 ≤ v ∧ v ≤ 100) →
      CommandBuilder.set_charge_target v =
        .error (.invalidParameter
          ("Charge Target SOC (" ++ toString v ++ ") must be in [4-100]%"))) ∧
    ((4 ≤ v ∧ v ≤ 100) →
      CommandBuilder.set_battery_soc_reserve v =
        .ok [TransparentRequest.writeHolding RegisterMap.BATTERY_SOC_RESERVE v]) ∧
    (¬(4 ≤ v ∧ v ≤ 100) →
      CommandBuilder.set_battery_soc_reserve v =
        .error (.invalidParameter
          ("Minimum SOC / shallow charge (" ++ toString v ++ ") must be in [4-100]%"))) ∧
    ((0 ≤ v ∧ v ≤ 50) →
      CommandBuilder.set_battery_charge_limit v =
        .ok [TransparentRequest.writeHolding RegisterMap.BATTERY_CHARGE_LIMIT v]) ∧
    (¬(0 ≤ v ∧ v ≤ 50) →
      CommandBuilder.set_battery_charge_limit v =
        .error (.invalidParameter
          ("Specified Charge Limit (" ++ toString v ++ "%) is not in [0-50]%"))) ∧
    ((0 ≤ v ∧ v ≤ 50) →
      CommandBuilder.set_battery_discharge_limit v =
        .ok [TransparentRequest.writeHolding RegisterMap.BATTERY_DISCHARGE_LIMIT v]) ∧
    (¬(0 ≤ v ∧ v ≤ 50) →
      CommandBuilder.set_battery_discharge_limit v =
        .error (.invalidParameter
          ("Specified Discharge Limit (" ++ toString v ++ "%) is not in [0-50]%"))) ∧
    ((4 ≤ v ∧ v ≤ 100) →
      CommandBuilder.set_battery_power_reserve v =
        .ok [TransparentRequest.writeHolding
              RegisterMap.BATTERY_DISCHARGE_MIN_POWER_RESERVE v]) ∧
    (¬(4 ≤ v ∧ v ≤ 100) →
      CommandBuilder.set_battery_power_reserve v =
        .error (.invalidParameter
          ("Battery power reserve (" ++ toString v ++ ") must be in [4-100]%"))) := by
  unfold CommandBuilder.set_charge_target CommandBuilder.set_battery_soc_reserve
    CommandBuilder.set_battery_charge_limit CommandBuilder.set_battery_discharge_limit
    CommandBuilder.set_battery_power_reserve
  refine ⟨?_, ?_, ?_, ?_, ?_, ?_, ?_, ?_, ?_, ?_⟩ <;> intro h <;> simp [h]

/-- C1 witness: boundary and in-range values for each of the five settings,
including boundary minus one and boundary plus one rejections. -/
theorem percentage_settings_range_spec_witness :
    (CommandBuilder.set_charge_target 50 =
      .ok [TransparentRequest.writeHolding RegisterMap.CHARGE_TARGET_SOC 50]) ∧
    (CommandBuilder.set_charge_target 3 =
      .error (.invalidParameter
        ("Charge Target SOC (" ++ toString (3 : Int) ++ ") must be in [4-100]%"))) ∧
    (CommandBuilder.set_battery_soc_reserve 4 =
      .ok [TransparentRequest.writeHolding RegisterMap.BATTERY_SOC_RESERVE 4]) ∧
    (CommandBuilder.set_battery_soc_reserve 101 =
      .error (.invalidParameter
        ("Minimum SOC / shallow charge (" ++ toString (101 : Int) ++ ") must be in [4-100]%"))) ∧
    (CommandBuilder.set_battery_charge_limit 0 =
      .ok [TransparentRequest.writeHolding RegisterMap.BATTERY_CHARGE_LIMIT 0]) ∧
    (CommandBuilder.set_battery_charge_limit 51 =
      .error (.invalidParameter
        ("Specified Charge Limit (" ++ toString (51 : Int) ++ "%) is not in [0-50]%"))) ∧
    (CommandBuilder.set_battery_discharge_limit 50 =
      .ok [TransparentRequest.writeHolding RegisterMap.BATTERY_DISCHARGE_LIMIT 50]) ∧
    (CommandBuilder.set_battery_discharge_limit (-1) =
      .error (.invalidParameter
        ("Specified Discharge Limit (" ++ toString (-1 : Int) ++ "%) is not in [0-50]%"))) ∧
    (CommandBuilder.set_battery_power_reserve 100 =
      .ok [TransparentRequest.writeHolding
            RegisterMap.BATTERY_DISCHARGE_MIN_POWER_RESERVE 100]) ∧
    (CommandBuilder.set_battery_power_reserve 101 =
      .error (.invalidParameter
        ("Battery power reserve (" ++ toString (101 : Int) ++ ") must be in [4-100]%"))) :=
  ⟨(percentage_settings_range_spec 50).1 (by decide),
   (percentage_settings_range_spec 3).2.1 (by decide),
   (percentage_settings_range_spec 4).2.2.1 (by decide),
   (percentage_settings_range_spec 101).2.2.2.1 (by decide),
   (percentage_settings_range_spec 0).2.2.2.2.1 (by decide),
   (percentage_settings_range_spec 51).2.2.2.2.2.1 (by decide),
   (percentage_settings_range_spec 50).2.2.2.2.2.2.1 (by decide),
   (percentage_settings_range_spec (-1)).2.2.2.2.2.2.2.1 (by decide),
   (percentage_settings_range_spec 100).2.2.2.2.2.2.2.2.1 (by decide),
   (percentage_settings_range_spec 101).2.2.2.2.2.2.2.2.2 (by decide)⟩

/-- C8: `set_battery_pause_mode` accepts exactly the ordinals 0 to 3, each
producing a single write of that ordinal to the battery-pause-mode register,
and rejects every other integer with an `InvalidParameter` error carrying
the offending value and the valid range, producing no requests. -/
theorem set_battery_pause_mode_range (v : Int) :
    ((0 ≤ v ∧ v ≤ 3) →
      CommandBuilder.set_battery_pause_mode v =
        .ok [TransparentRequest.writeHolding RegisterMap.BATTERY_PAUSE_MODE v]) ∧
    (¬(0 ≤ v ∧ v ≤ 3) →
      CommandBuilder.set_battery_pause_mode v =
        .error (.invalidParameter
          ("Battery pause mode (" ++ toString v ++ ") must be in [0-3]"))) := by
  unfold CommandBuilder.set_battery_pause_mode
  refine ⟨?_, ?_⟩ <;> intro h <;> simp [h]

/-- C8 witness: 0, 1, 2 and 3 are accepted; -1 and 4 are rejected. -/
theorem set_battery_pause_mode_range_witness :
    (CommandBuilder.set_battery_pause_mode 0 =
      .ok [TransparentRequest.writeHolding RegisterMap.BATTERY_PAUSE_MODE 0]) ∧
    (CommandBuilder.set_battery_pause_mode 1 =
      .ok [TransparentRequest.writeHolding RegisterMap.BATTERY_PAUSE_MODE 1]) ∧
    (CommandBuilder.set_battery_pause_mode 2 =
      .ok [TransparentRequest.writeHolding RegisterMap.BATTERY_PAUSE_MODE 2]) ∧
    (CommandBuilder.set_battery_pause_mode 3 =
      .ok [TransparentRequest.writeHolding RegisterMap.BATTERY_PAUSE_MODE 3]) ∧
    (CommandBuilder.set_battery_pause_mode (-1) =
      .error (.invalidParameter
        ("Battery pause mode (" ++ toString (-1 : Int) ++ ") must be in [0-3]"))) ∧
    (CommandBuilder.set_battery_pause_mode 4 =
      .error (.invalidParameter
        ("Battery pause mode (" ++ toString (4 : Int) ++ ") must be in [0-3]"))) :=
  ⟨(set_battery_pause_mode_range 0).1 (by decide),
   (set_battery_pause_mode_range 1).1 (by decide),
   (set_battery_pause_mode_range 2).1 (by decide),
   (set_battery_pause_mode_range 3).1 (by decide),
   (set_battery_pause_mode_range (-1)).2 (by decide),
   (set_battery_pause_mode_range 4).2 (by decide)⟩

/-- C5: `refresh_plant_data` is a pure planning function whose result is,
in order: the primary 60-register input read, then (iff complete) the three
fixed 60-register blocks (holding 0, holding 60, input 120), then one
60-register input read (base 60) per battery index in ascending order from
slave 0x32 plus index, then one 60-register holding read per extra base
register in caller order. With complete false and 2 batteries it returns
exactly 3 reads; with complete true and a supplied non-all-in-one model the
battery count is forced to max_batteries regardless of the requested count. -/
theorem refresh_plant_data_plan :
    (∀ (model : Option Model) (complete : Bool) (nb mb : Nat) (extra : List Nat),
      CommandBuilder.refresh_plant_data model complete nb mb extra =
        [TransparentRequest.readInput (CommandBuilder.main_slave_address model) 0 60] ++
        (if complete then
          [TransparentRequest.readHolding (CommandBuilder.main_slave_address model) 0 60,
           TransparentRequest.readHolding (CommandBuilder.main_slave_address model) 60 60,
           TransparentRequest.readInput (CommandBuilder.main_slave_address model) 120 60]
         else []) ++
        ((List.range
            (if complete ∧ ¬(model = none ∨ model = some Model.all_in_one) then mb
             else nb)).map
          fun i => TransparentRequest.readInput (0x32 + i) 60 60) ++
        extra.map
          (fun hr =>
            TransparentRequest.readHolding (CommandBuilder.main_slave_address model) hr 60)) ∧
    (∀ (model : Option Model) (mb : Nat),
      CommandBuilder.refresh_plant_data model false 2 mb [] =
        [TransparentRequest.readInput (CommandBuilder.main_slave_address model) 0 60,
         TransparentRequest.readInput 0x32 60 60,
         TransparentRequest.readInput 0x33 60 60]) ∧
    (∀ (m : Model) (nb mb : Nat) (extra : List Nat), m ≠ Model.all_in_one →
      CommandBuilder.refresh_plant_data (some m) true nb mb extra =
        CommandBuilder.refresh_plant_data (some m) true mb mb extra) := by
  refine ⟨refresh_decomp, fun model mb => rfl, ?_⟩
  intro m nb mb extra hm
  cases m with
  | all_in_one => exact absurd rfl hm
  | other_family => rw [refresh_decomp, refresh_decomp]; simp

/-- C5 witness: a supplied non-all-in-one model with complete refresh uses
the ceiling, so requesting 7 of a maximum 2 batteries equals requesting 2. -/
theorem refresh_plant_data_plan_witness :
    Model.other_family ≠ Model.all_in_one ∧
    CommandBuilder.refresh_plant_data (some Model.other_family) true 7 2 [] =
      CommandBuilder.refresh_plant_data (some Model.other_family) true 2 2 [] :=
  ⟨by decide, refresh_plant_data_plan.2.2 Model.other_family 7 2 [] (by decide)⟩

/-- C10: with complete true and a supplied model that is not all-in-one, the
number of per-battery reads equals max_batteries exactly — the forcing also
reduces a larger requested count; with complete false the requested count
is used unchanged for every model, including unspecified and all-in-one. -/
theorem refresh_battery_count_forcing :
    (∀ (m : Model) (nb mb : Nat) (extra : List Nat), m ≠ Model.all_in_one →
      batteryReadCount
        (CommandBuilder.refresh_plant_data (some m) true nb mb extra) = mb) ∧
    (∀ (model : Option Model) (nb mb : Nat) (extra : List Nat),
      CommandBuilder.refresh_plant_data model false nb mb extra =
        [TransparentRequest.readInput (CommandBuilder.main_slave_address model) 0 60] ++
        ((List.range nb).map fun i => TransparentRequest.readInput (0x32 + i) 60 60) ++
        extra.map
          (fun hr =>
            TransparentRequest.readHolding (CommandBuilder.main_slave_address model) hr 60)) ∧
    batteryReadCount
      (CommandBuilder.refresh_plant_data (some Model.other_family) true 7 2 []) = 2 := by
  refine ⟨?_, ?_, by decide⟩
  · intro m nb mb extra hm
    cases m with
    | all_in_one => exact absurd rfl hm
    | other_family =>
      rw [refresh_decomp]
      unfold batteryReadCount
      rw [List.countP_append, List.countP_append, List.countP_append,
        countP_battery_range, countP_extra_reads]
      simp [isBatteryRead, CommandBuilder.main_slave_address, List.countP_cons]
  · intro model nb mb extra
    rw [refresh_decomp]
    simp

/-- C10 witness: for the non-all-in-one model, a complete refresh that
requests 0 batteries with a ceiling of 5 still plans 5 per-battery reads. -/
theorem refresh_battery_count_forcing_witness :
    Model.other_family ≠ Model.all_in_one ∧
    batteryReadCount
      (CommandBuilder.refresh_plant_data (some Model.other_family) true 0 5 []) = 5 :=
  ⟨by decide, refresh_battery_count_forcing.1 Model.other_family 0 5 [] (by decide)⟩

/-- C2 is false as stated: with valid inputs, `refresh_plant_data` emits
read requests whose base registers (0 and 60 here) are not Register Map
addresses, and the Register Map declares 29 constants, not 30. -/
theorem register_map_coverage_counterexample :
    CommandBuilder.refresh_plant_data none false 1 5 [] =
      [TransparentRequest.readInput 0x11 0 60,
       TransparentRequest.readInput 0x32 60 60] ∧
    (0 : Nat) ∉ RegisterMap.addresses ∧
    (60 : Nat) ∉ RegisterMap.addresses ∧
    RegisterMap.addresses.length = 29 := by
  decide

/-- C2 amended: every Write Holding Register request emitted by any
operation on any input targets one of the 29 declared Register Map
constants; read requests are exempt, their base registers being block bases
(0, 60, 120 or caller-supplied extras), not Register Map entries. -/
theorem writes_target_register_map :
    writesInMap CommandBuilder.disable_charge_target = true ∧
    (∀ v, exceptWritesInMap (CommandBuilder.set_charge_target v) = true) ∧
    (∀ b, writesInMap (CommandBuilder.set_enable_charge b) = true) ∧
    (∀ b, writesInMap (CommandBuilder.set_enable_charge_target b) = true) ∧
    (∀ b, writesInMap (CommandBuilder.set_enable_discharge b) = true) ∧
    writesInMap CommandBuilder.set_inverter_reboot = true ∧
    writesInMap CommandBuilder.set_calibrate_battery_soc = true ∧
    writesInMap CommandBuilder.enable_charge = true ∧
    writesInMap CommandBuilder.disable_charge = true ∧
    writesInMap CommandBuilder.enable_discharge = true ∧
    writesInMap CommandBuilder.disable_discharge = true ∧
    writesInMap CommandBuilder.set_discharge_mode_max_power = true ∧
    writesInMap CommandBuilder.set_discharge_mode_to_match_demand = true ∧
    (∀ v, exceptWritesInMap (CommandBuilder.set_shallow_charge v) = true) ∧
    (∀ v, exceptWritesInMap (CommandBuilder.set_battery_soc_reserve v) = true) ∧
    (∀ v, exceptWritesInMap (CommandBuilder.set_battery_charge_limit v) = true) ∧
    (∀ v, exceptWritesInMap (CommandBuilder.set_battery_discharge_limit v) = true) ∧
    (∀ v, exceptWritesInMap (CommandBuilder.set_battery_power_reserve v) = true) ∧
    (∀ v, exceptWritesInMap (CommandBuilder.set_battery_pause_mode v) = true) ∧
    (∀ t, writesInMap (CommandBuilder.set_pause_slot_start t) = true) ∧
    (∀ t, writesInMap (CommandBuilder.set_pause_slot_end t) = true) ∧
    (∀ ts, writesInMap (CommandBuilder.set_charge_slot_1 ts) = true) ∧
    writesInMap CommandBuilder.reset_charge_slot_1 = true ∧
    (∀ ts, writesInMap (CommandBuilder.set_charge_slot_2 ts) = true) ∧
    writesInMap CommandBuilder.reset_charge_slot_2 = true ∧
    (∀ ts, writesInMap (CommandBuilder.set_discharge_slot_1 ts) = true) ∧
    writesInMap CommandBuilder.reset_discharge_slot_1 = true ∧
    (∀ ts, writesInMap (CommandBuilder.set_discharge_slot_2 ts) = true) ∧
    writesInMap CommandBuilder.reset_discharge_slot_2 = true ∧
    (∀ dt, writesInMap (CommandBuilder.set_system_date_time dt) = true) ∧
    exceptWritesInMap CommandBuilder.set_mode_dynamic = true ∧
    (∀ s1 s2 e, exceptWritesInMap (CommandBuilder.set_mode_storage s1 s2 e) = true) ∧
    (∀ (model : Option Model) (complete : Bool) (nb mb : Nat) (extra : List Nat),
      writesInMap (CommandBuilder.refresh_plant_data model complete nb mb extra) = true) ∧
    (∀ (model : Option Model) (br : Nat),
      writesInMap (CommandBuilder.refresh_additional_holding_registers model br) = true) := by
  refine ⟨rfl, ?_, fun _ => rfl, fun _ => rfl, fun _ => rfl, rfl, rfl, rfl, rfl, rfl,
    rfl, rfl, rfl, ?_, ?_, ?_, ?_, ?_, ?_, ?_, ?_, fun _ => rfl, rfl, fun _ => rfl,
    rfl, fun _ => rfl, rfl, fun _ => rfl, rfl, fun _ => rfl, rfl, ?_, ?_,
    fun _ _ => rfl⟩
  · intro v; unfold CommandBuilder.set_charge_target; split <;> rfl
  · intro v
    unfold CommandBuilder.set_shallow_charge CommandBuilder.set_battery_soc_reserve
    split <;> rfl
  · intro v; unfold CommandBuilder.set_battery_soc_reserve; split <;> rfl
  · intro v; unfold CommandBuilder.set_battery_charge_limit; split <;> rfl
  · intro v; unfold CommandBuilder.set_battery_discharge_limit; split <;> rfl
  · intro v; unfold CommandBuilder.set_battery_power_reserve; split <;> rfl
  · intro v; unfold CommandBuilder.set_battery_pause_mode; split <;> rfl
  · intro t; cases t <;> rfl
  · intro t; cases t <;> rfl
  · intro s1 s2 e; cases e <;> cases s2 <;> rfl
  · intro model complete nb mb extra
    rw [refresh_decomp, writesInMap_append, writesInMap_append, writesInMap_append,
      writesInMap_battery_range, writesInMap_extra_reads]
    cases complete <;> rfl

end Givenergy
